import Mathlib

/-!
Tales backend: access rules, like/unlike ledger and generation prompt.

A shallow embedding of `src/utils/generateTale.js`, `src/middleware/auth.js`,
`src/models/Tale.js`, `src/models/User.js` and `src/routes/tales.js`.

Conventions of the embedding:

* a JavaScript value that may be `undefined` is an `Option`;
* the document store is explicit state (`Store`), every handler returns the
  store it leaves behind together with the HTTP response;
* every awaited store call of a handler is numbered in program order and an
  oracle `StoreFaults` tells which of them throws;
* `jsonwebtoken.verify` and the text-generation client are parameters;
* the `_id` that `new Tale` generates and the value of `Date.now` are inputs of a
  creation;
* `likes`, a JavaScript Number, is an integer and `+ 1`, `- 1` on it are integer
  arithmetic: that is the arithmetic of a Number exactly on the safe integers
  (`isSafeInteger`, absolute value at most `2 ^ 53 - 1`), so statements about the new
  value of a counter assume a safe integer; request fields have the type the schema
  expects.

The listing routes `GET /user` and `GET /public` only read the store and are not
embedded.
-/

namespace Tales

/-! ## `src/utils/generateTale.js` -/

/-- The `params` object of `generateTale`; `none` is a property that is `undefined`. -/
structure GenerationParams where
  title : Option String
  ageRange : Option String
  topic : Option String
  mainCharacter : Option String
  setting : Option String
  mood : Option String
  length : Option String
  moralLesson : Option String
deriving DecidableEq, Repr

/-- Template-literal rendering of a value that may be `undefined`. -/
def jsString : Option String → String
  | none => "undefined"
  | some s => s

/-- Truthiness of a JavaScript string: every string but the empty one. -/
def truthy (s : String) : Bool := !(s == "")

/-- Destructuring default `mainCharacter = ''`. -/
def GenerationParams.mainCharacterD (p : GenerationParams) : String := p.mainCharacter.getD ""

/-- Destructuring default `setting = ''`. -/
def GenerationParams.settingD (p : GenerationParams) : String := p.setting.getD ""

/-- Destructuring default `mood = 'happy'`. -/
def GenerationParams.moodD (p : GenerationParams) : String := p.mood.getD "happy"

/-- Destructuring default `length = 'medium'`. -/
def GenerationParams.lengthD (p : GenerationParams) : String := p.length.getD "medium"

/-- Destructuring default `moralLesson = ''`. -/
def GenerationParams.moralLessonD (p : GenerationParams) : String := p.moralLesson.getD ""

/-- The `targetWordCount` local of `generateTale` (lines 21-29). -/
def targetWordCount (p : GenerationParams) : Nat :=
  let length := p.lengthD
  if p.ageRange = some "3-5" then
    if length = "short" then 200 else if length = "medium" then 350 else 500
  else if p.ageRange = some "6-8" then
    if length = "short" then 350 else if length = "medium" then 600 else 900
  else
    if length = "short" then 500 else if length = "medium" then 800 else 1200

/-- The `characterDescription` local of `generateTale`. -/
def characterDescription (p : GenerationParams) : String :=
  if truthy p.mainCharacterD then "The main character is " ++ p.mainCharacterD ++ "." else ""

/-- The `settingDescription` local of `generateTale`. -/
def settingDescription (p : GenerationParams) : String :=
  if truthy p.settingD then "The story takes place in " ++ p.settingD ++ "." else ""

/-- The `moralLessonInstruction` local of `generateTale`. -/
def moralLessonInstruction (p : GenerationParams) : String :=
  if truthy p.moralLessonD then
    "The story should teach a moral lesson about " ++ p.moralLessonD ++ "."
  else ""

/-- The `languageInstruction` local of `generateTale`. -/
def languageInstruction (p : GenerationParams) : String :=
  if p.ageRange = some "3-5" then
    "Use simple language, short sentences, and repetition. The story should be very easy to understand for preschoolers."
  else if p.ageRange = some "6-8" then
    "Use clear language with some more advanced vocabulary. The story can have more complex plot elements while remaining easy to follow."
  else
    "Use rich vocabulary and more complex sentence structures. The story can include more nuanced themes and character development."

/-- The `moodInstruction` local of `generateTale`. -/
def moodInstruction (p : GenerationParams) : String :=
  "The overall tone of the story should be " ++ p.moodD ++ "."

/-- The `prompt` template literal of `generateTale`. -/
def prompt (p : GenerationParams) : String :=
  "\n    Write an original children\x27s tale with the title \"" ++ jsString p.title
    ++ "\" about " ++ jsString p.topic ++ ". " ++ characterDescription p ++ " "
    ++ settingDescription p
    ++ "\n\n    The story is for children aged " ++ jsString p.ageRange ++ " years. "
    ++ languageInstruction p
    ++ "\n\n    " ++ moralLessonInstruction p ++ " " ++ moodInstruction p
    ++ "\n\n    The story should be around " ++ toString (targetWordCount p) ++ " words long."
    ++ "\n\n    Please write a complete, engaging story with a clear beginning, middle, and end. Include dialogue and descriptive language appropriate for the age group.\n  "

/-- The argument of `anthropic.messages.create`. -/
structure MessageRequest where
  model : String
  max_tokens : Nat
  temperature : ℚ
  system : String
  userContent : String
deriving DecidableEq

/-- Function `generateTale`: `create` is the text-generation client, `none` when the call
throws; the result is the generated text or the rethrown error message. -/
def generateTale (create : MessageRequest → Option String) (p : GenerationParams) :
    Except String String :=
  match create
      { model := "claude-3-haiku-20240307"
        max_tokens := 4000
        temperature := 7 / 10
        system := "You are an expert children\x27s story writer. Your task is to write original, engaging, and age-appropriate tales for children."
        userContent := prompt p } with
  | some text => .ok text
  | none => .error "Failed to generate tale"

/-! ## Documents and the store (`src/models/Tale.js`, `src/models/User.js`) -/

/-- An `ObjectId` of the `tales` collection. -/
abbrev TaleId := Nat

/-- An `ObjectId` of the `users` collection; also the `user.id` claim of a token. -/
abbrev UserId := Nat

/-- The predicate `Number.isSafeInteger` on integers: the range on which a JavaScript
Number adds and subtracts 1 exactly. From `2 ^ 53` on, `n + 1` is rounded (at `2 ^ 53`
it is `2 ^ 53` again), which integer arithmetic does not show. -/
def isSafeInteger (n : Int) : Bool :=
  decide (-(2 ^ 53 - 1) ≤ n ∧ n ≤ 2 ^ 53 - 1)

/-- A document of `TaleSchema`. -/
structure Tale where
  id : TaleId
  title : String
  content : String
  ageRange : String
  topic : String
  isPublic : Bool
  likes : Int
  author : UserId
  createdAt : Nat
deriving DecidableEq, Repr

/-- A document of `UserSchema`. -/
structure User where
  id : UserId
  name : String
  email : String
  password : String
  likedTales : List TaleId
  createdAt : Nat
deriving DecidableEq, Repr

/-- The two collections of the document store. -/
structure Store where
  tales : List Tale
  users : List User
deriving DecidableEq, Repr

/-- What a `catch (err)` block can tell apart: `err.kind === 'ObjectId'` (a cast error of
the store) or any other error (store rejection, validation error, `TypeError`). -/
inductive Thrown where
  | objectId
  | other
deriving DecidableEq, Repr

/-- Oracle of store failures: `faults k = some e` when the `k`-th awaited store call of
the handler (counted from 0 in program order) rejects with `e`. An id string that is not
castable to an `ObjectId` is the fault `Thrown.objectId` at the call that looks it up. -/
abbrev StoreFaults := Nat → Option Thrown

/-- The oracle under which no store call fails. -/
def noFaults : StoreFaults := fun _ => none

/-- Query `Tale.findById`. -/
def Tale.findById (s : Store) (id : TaleId) : Option Tale :=
  s.tales.find? (fun t => t.id == id)

/-- Query `User.findById`. -/
def User.findById (s : Store) (id : UserId) : Option User :=
  s.users.find? (fun u => u.id == id)

/-- Method `tale.save()` on a loaded document: the stored document with this `_id` is replaced. -/
def Tale.save (s : Store) (t : Tale) : Store :=
  { s with tales := s.tales.map (fun x => if x.id = t.id then t else x) }

/-- Method `user.save()` on a loaded document. -/
def User.save (s : Store) (u : User) : Store :=
  { s with users := s.users.map (fun x => if x.id = u.id then u else x) }

/-- Method `tale.save()` on a document made by `new Tale(...)`: it is inserted. -/
def Tale.insert (s : Store) (t : Tale) : Store :=
  { s with tales := s.tales ++ [t] }

/-- Method `tale.remove()`. -/
def Tale.remove (s : Store) (t : Tale) : Store :=
  { s with tales := s.tales.filter (fun x => x.id != t.id) }

/-- White space of `String.prototype.trim`. -/
def jsWhitespace (c : Char) : Bool :=
  let n := c.toNat
  n = 0x09 || n = 0x0A || n = 0x0B || n = 0x0C || n = 0x0D || n = 0x20 || n = 0xA0
    || n = 0x1680 || (0x2000 ≤ n && n ≤ 0x200A) || n = 0x2028 || n = 0x2029 || n = 0x202F
    || n = 0x205F || n = 0x3000 || n = 0xFEFF

/-- The schema option `trim: true`. -/
def jsTrim (s : String) : String :=
  String.mk ((s.data.dropWhile jsWhitespace).reverse.dropWhile jsWhitespace).reverse

/-- Schema validation of a freshly constructed tale: `required` on `title`, `content`,
`ageRange`, `topic` and the `enum` of `ageRange`. -/
def Tale.valid (t : Tale) : Bool :=
  truthy t.title && truthy t.content && truthy t.topic
    && (t.ageRange == "3-5" || t.ageRange == "6-8" || t.ageRange == "9-12")

/-! ## HTTP responses -/

/-- The `author` of a tale after `.populate('author', 'name')`. -/
structure AuthorRef where
  id : UserId
  name : String
deriving DecidableEq, Repr

/-- A tale as sent by `GET /:id`: `author` is the populated author (`none` is `null`, the
author document is missing) and `isLiked` is present only when it was attached. -/
structure TaleView where
  tale : Tale
  author : Option AuthorRef
  isLiked : Option Bool
deriving DecidableEq, Repr

/-- A response body. -/
inductive Body where
  | message (m : String)
  | text (t : String)
  | errors (msgs : List String)
  | tale (t : Tale)
  | taleView (v : TaleView)
  | likes (n : Int)
deriving DecidableEq, Repr

/-- Status code and body of a response (`res.json` alone sends status 200). -/
structure Response where
  status : Nat
  body : Body
deriving DecidableEq, Repr

/-- The `catch (err)` block shared by the `/:id` handlers. -/
def catchResponse : Thrown → Response
  | .objectId => ⟨404, .message "Tale not found"⟩
  | .other => ⟨500, .text "Server error"⟩

/-! ## Credentials (`src/middleware/auth.js` and the inline checks of `GET /:id`) -/

/-- The decoded token; `user` is `decoded.user.id`, `none` when `decoded.user` is missing. -/
structure JwtPayload where
  user : Option UserId
deriving DecidableEq, Repr

/-- Function `jwt.verify(token, process.env.JWT_SECRET)`; `none` when it throws. -/
abbrev JwtVerify := String → Option JwtPayload

/-- Middleware `auth`: either the response it sends itself or the `req.user` it sets. -/
def auth (verify : JwtVerify) (authHeader : Option String) : Except Response (Option UserId) :=
  match authHeader with
  | none => .error ⟨401, .message "No token, authorization denied"⟩
  | some h =>
    if !truthy h then .error ⟨401, .message "No token, authorization denied"⟩
    else
      let token := if "Bearer ".data.isPrefixOf h.data then String.mk (h.data.drop 7) else h
      match verify token with
      | some decoded => .ok decoded.user
      | none => .error ⟨401, .message "Token is not valid"⟩

/-- Method `split(' ')` on the characters of a string. -/
def splitSpace : List Char → List (List Char)
  | [] => [[]]
  | c :: cs =>
    match splitSpace cs with
    | [] => [[c]]
    | seg :: rest => if c = ' ' then [] :: seg :: rest else (c :: seg) :: rest

/-- The three lines `token = authorization.split(' ')[1]`, `decoded = jwt.verify(token, ..)`,
`userId = decoded.user.id` of `GET /:id`; `none` when one of them throws
(`jwt.verify(undefined)` throws). -/
def decodeUserId (verify : JwtVerify) (authorization : String) : Option UserId :=
  match (splitSpace authorization.data).get? 1 with
  | none => none
  | some token =>
    match verify (String.mk token) with
    | none => none
    | some decoded => decoded.user

/-! ## `src/routes/tales.js` -/

/-- The body of `POST /api/tales`. -/
structure CreateBody where
  title : Option String
  content : Option String
  ageRange : Option String
  topic : Option String
  isPublic : Option Bool
deriving DecidableEq, Repr

/-- The body of `PATCH /api/tales/:id`. -/
structure PatchBody where
  title : Option String
  content : Option String
  isPublic : Option Bool
deriving DecidableEq, Repr

/-- One `body(field, msg).not().isEmpty()` validator: the message when the field is
missing or empty. -/
def notEmpty (field : Option String) (msg : String) : List String :=
  if truthy (field.getD "") then [] else [msg]

/-- The errors collected by `validationResult(req)` for `POST /api/tales`. -/
def validationResult (b : CreateBody) : List String :=
  notEmpty b.title "Title is required" ++ notEmpty b.content "Content is required"
    ++ notEmpty b.ageRange "Age range is required" ++ notEmpty b.topic "Topic is required"

/-- Handler of `POST /api/tales` (lines 20-46), after `auth`. `newId` is the `_id` that
`new Tale` generates and `now` the value of `Date.now`. Store call 0 is `tale.save()`; it
also rejects when the schema validation fails or the `_id` is already taken. -/
def createHandler (faults : StoreFaults) (s : Store) (reqUser : Option UserId)
    (b : CreateBody) (newId : TaleId) (now : Nat) : Store × Response :=
  if validationResult b ≠ [] then (s, ⟨400, .errors (validationResult b)⟩)
  else
    match reqUser with
    | none => (s, ⟨500, .text "Server error"⟩)
    | some uid =>
      let tale : Tale :=
        { id := newId
          title := jsTrim (b.title.getD "")
          content := b.content.getD ""
          ageRange := b.ageRange.getD ""
          topic := jsTrim (b.topic.getD "")
          isPublic := b.isPublic.getD false
          likes := 0
          author := uid
          createdAt := now }
      if !tale.valid then (s, ⟨500, .text "Server error"⟩)
      else if (Tale.findById s newId).isSome then (s, ⟨500, .text "Server error"⟩)
      else
        match faults 0 with
        | some _ => (s, ⟨500, .text "Server error"⟩)
        | none => (Tale.insert s tale, ⟨201, .tale tale⟩)

/-- Route `POST /api/tales`. -/
def postTale (verify : JwtVerify) (faults : StoreFaults) (s : Store)
    (authHeader : Option String) (b : CreateBody) (newId : TaleId) (now : Nat) :
    Store × Response :=
  match auth verify authHeader with
  | .error r => (s, r)
  | .ok reqUser => createHandler faults s reqUser b newId now

/-- The populated `author` of a tale: `_id` and `name` of the author document, `none`
(`null`) when there is no such document. -/
def populateAuthor (s : Store) (t : Tale) : Option AuthorRef :=
  (User.findById s t.author).map (fun u => { id := u.id, name := u.name })

/-- The header `req.headers.authorization` when it is truthy. -/
def truthyHeader (authorization : Option String) : Option String :=
  match authorization with
  | none => none
  | some h => if truthy h then some h else none

/-- The private-tale check of `GET /:id` (lines 141-159): the response it returns, or
`none` when the handler goes on. -/
def privateGate (verify : JwtVerify) (authorization : Option String) (tale : Tale)
    (author : Option AuthorRef) : Option Response :=
  if !tale.isPublic then
    match truthyHeader authorization with
    | none => some ⟨403, .message "Access denied"⟩
    | some h =>
      match decodeUserId verify h with
      | none => some ⟨401, .message "Invalid token"⟩
      | some userId =>
        match author with
        | none => some ⟨401, .message "Invalid token"⟩
        | some a => if a.id ≠ userId then some ⟨403, .message "Access denied"⟩ else none
  else none

/-- The like enrichment of `GET /:id` (lines 162-177): the `isLiked` flag when the `try`
block reaches `res.json(taleObj)`, `none` when the header is falsy or the block throws.
Store call 1 is `User.findById(userId)`. -/
def likeInfo (verify : JwtVerify) (faults : StoreFaults) (s : Store)
    (authorization : Option String) (tale : Tale) : Option Bool :=
  match truthyHeader authorization with
  | none => none
  | some h =>
    match decodeUserId verify h with
    | none => none
    | some userId =>
      match faults 1 with
      | some _ => none
      | none =>
        match User.findById s userId with
        | none => none
        | some user => some (decide (tale.id ∈ user.likedTales))

/-- Route `GET /api/tales/:id` (lines 132-187). Store call 0 is
`Tale.findById(..).populate('author', 'name')`. The store is only read. -/
def getTale (verify : JwtVerify) (faults : StoreFaults) (s : Store)
    (authorization : Option String) (id : TaleId) : Response :=
  match faults 0 with
  | some e => catchResponse e
  | none =>
    match Tale.findById s id with
    | none => ⟨404, .message "Tale not found"⟩
    | some tale =>
      let author := populateAuthor s tale
      match privateGate verify authorization tale author with
      | some r => r
      | none =>
        ⟨200, .taleView
          { tale := tale, author := author, isLiked := likeInfo verify faults s authorization tale }⟩

/-- The three conditional assignments of `PATCH /:id` (lines 209-211); the schema trims
a title that is set. -/
def applyPatch (tale : Tale) (b : PatchBody) : Tale :=
  let tale1 := if truthy (b.title.getD "") then
    { tale with title := jsTrim (b.title.getD "") } else tale
  let tale2 := if truthy (b.content.getD "") then
    { tale1 with content := b.content.getD "" } else tale1
  match b.isPublic with
  | some v => { tale2 with isPublic := v }
  | none => tale2

/-- Handler of `PATCH /api/tales/:id` (lines 192-222), after `auth`. Store call 0 is
`Tale.findById`, store call 1 is `tale.save()`, which also rejects when the new title is
empty once trimmed. -/
def updateHandler (faults : StoreFaults) (s : Store) (reqUser : Option UserId)
    (id : TaleId) (b : PatchBody) : Store × Response :=
  match faults 0 with
  | some e => (s, catchResponse e)
  | none =>
    match Tale.findById s id with
    | none => (s, ⟨404, .message "Tale not found"⟩)
    | some tale =>
      match reqUser with
      | none => (s, catchResponse .other)
      | some uid =>
        if tale.author ≠ uid then (s, ⟨403, .message "User not authorized"⟩)
        else
          let tale3 := applyPatch tale b
          if truthy (b.title.getD "") && !truthy tale3.title then (s, catchResponse .other)
          else
            match faults 1 with
            | some e => (s, catchResponse e)
            | none => (Tale.save s tale3, ⟨200, .tale tale3⟩)

/-- Route `PATCH /api/tales/:id`. -/
def patchTale (verify : JwtVerify) (faults : StoreFaults) (s : Store)
    (authHeader : Option String) (id : TaleId) (b : PatchBody) : Store × Response :=
  match auth verify authHeader with
  | .error r => (s, r)
  | .ok reqUser => updateHandler faults s reqUser id b

/-- Handler of `DELETE /api/tales/:id` (lines 227-250), after `auth`. Store call 0 is
`Tale.findById`, store call 1 is `tale.remove()`. -/
def deleteHandler (faults : StoreFaults) (s : Store) (reqUser : Option UserId)
    (id : TaleId) : Store × Response :=
  match faults 0 with
  | some e => (s, catchResponse e)
  | none =>
    match Tale.findById s id with
    | none => (s, ⟨404, .message "Tale not found"⟩)
    | some tale =>
      match reqUser with
      | none => (s, catchResponse .other)
      | some uid =>
        if tale.author ≠ uid then (s, ⟨403, .message "User not authorized"⟩)
        else
          match faults 1 with
          | some e => (s, catchResponse e)
          | none => (Tale.remove s tale, ⟨200, .message "Tale removed"⟩)

/-- Route `DELETE /api/tales/:id`. -/
def deleteTale (verify : JwtVerify) (faults : StoreFaults) (s : Store)
    (authHeader : Option String) (id : TaleId) : Store × Response :=
  match auth verify authHeader with
  | .error r => (s, r)
  | .ok reqUser => deleteHandler faults s reqUser id

/-- Handler of `POST /api/tales/:id/like` (lines 290-326), after `auth`. Store calls:
0 `Tale.findById`, 1 `User.findById`, 2 `user.save()`, 3 `tale.save()`. The statement
`tale.likes += 1` is integer addition, exact for a Number when `isSafeInteger tale.likes`. -/
def likeHandler (faults : StoreFaults) (s : Store) (reqUser : Option UserId)
    (id : TaleId) : Store × Response :=
  match faults 0 with
  | some e => (s, catchResponse e)
  | none =>
    match Tale.findById s id with
    | none => (s, ⟨404, .message "Tale not found"⟩)
    | some tale =>
      if !tale.isPublic then (s, ⟨403, .message "Cannot like a private tale"⟩)
      else
        match reqUser with
        | none => (s, catchResponse .other)
        | some uid =>
          match faults 1 with
          | some e => (s, catchResponse e)
          | none =>
            match User.findById s uid with
            | none => (s, catchResponse .other)
            | some user =>
              if tale.id ∈ user.likedTales then (s, ⟨400, .message "Tale already liked"⟩)
              else
                let user1 := { user with likedTales := user.likedTales ++ [tale.id] }
                match faults 2 with
                | some e => (s, catchResponse e)
                | none =>
                  let s1 := User.save s user1
                  let tale1 := { tale with likes := tale.likes + 1 }
                  match faults 3 with
                  | some e => (s1, catchResponse e)
                  | none => (Tale.save s1 tale1, ⟨200, .likes tale1.likes⟩)

/-- Route `POST /api/tales/:id/like`. -/
def postLike (verify : JwtVerify) (faults : StoreFaults) (s : Store)
    (authHeader : Option String) (id : TaleId) : Store × Response :=
  match auth verify authHeader with
  | .error r => (s, r)
  | .ok reqUser => likeHandler faults s reqUser id

/-- Handler of `DELETE /api/tales/:id/like` (lines 331-364), after `auth`. Store calls:
0 `Tale.findById`, 1 `User.findById`, 2 `user.save()`, 3 `tale.save()`. The expression
`Math.max(0, tale.likes - 1)` is integer arithmetic, exact for a Number when
`isSafeInteger tale.likes`. -/
def unlikeHandler (faults : StoreFaults) (s : Store) (reqUser : Option UserId)
    (id : TaleId) : Store × Response :=
  match faults 0 with
  | some e => (s, catchResponse e)
  | none =>
    match Tale.findById s id with
    | none => (s, ⟨404, .message "Tale not found"⟩)
    | some tale =>
      match reqUser with
      | none => (s, catchResponse .other)
      | some uid =>
        match faults 1 with
        | some e => (s, catchResponse e)
        | none =>
          match User.findById s uid with
          | none => (s, catchResponse .other)
          | some user =>
            if tale.id ∉ user.likedTales then (s, ⟨400, .message "Tale not liked yet"⟩)
            else
              let user1 :=
                { user with likedTales := user.likedTales.filter (fun taleId => taleId != tale.id) }
              match faults 2 with
              | some e => (s, catchResponse e)
              | none =>
                let s1 := User.save s user1
                let tale1 := { tale with likes := max 0 (tale.likes - 1) }
                match faults 3 with
                | some e => (s1, catchResponse e)
                | none => (Tale.save s1 tale1, ⟨200, .likes tale1.likes⟩)

/-- Route `DELETE /api/tales/:id/like`. -/
def deleteLike (verify : JwtVerify) (faults : StoreFaults) (s : Store)
    (authHeader : Option String) (id : TaleId) : Store × Response :=
  match auth verify authHeader with
  | .error r => (s, r)
  | .ok reqUser => unlikeHandler faults s reqUser id

/-! ## Sequential runs -/

/-- A request to one of the five mutating routes, with what the environment supplies
(`newId`, `now`) for a creation. -/
inductive Request where
  | create (authHeader : Option String) (body : CreateBody) (newId : TaleId) (now : Nat)
  | update (authHeader : Option String) (id : TaleId) (body : PatchBody)
  | delete (authHeader : Option String) (id : TaleId)
  | like (authHeader : Option String) (id : TaleId)
  | unlike (authHeader : Option String) (id : TaleId)
deriving DecidableEq, Repr

/-- One request served on store `s`. -/
def step (verify : JwtVerify) (faults : StoreFaults) (s : Store) : Request → Store × Response
  | .create h b newId now => postTale verify faults s h b newId now
  | .update h id b => patchTale verify faults s h id b
  | .delete h id => deleteTale verify faults s h id
  | .like h id => postLike verify faults s h id
  | .unlike h id => deleteLike verify faults s h id

/-- The store after a sequential run of requests none of whose store calls fails. -/
def run (verify : JwtVerify) (s : Store) : List Request → Store
  | [] => s
  | r :: rs => run verify (step verify noFaults s r).1 rs

/-- Number of users whose `likedTales` contains the tale id. -/
def likeCount (s : Store) (id : TaleId) : Nat :=
  s.users.countP (fun u => decide (id ∈ u.likedTales))

/-- The counter of every stored tale equals the number of users who like it. -/
def CounterInv (s : Store) : Prop :=
  ∀ t ∈ s.tales, t.likes = (likeCount s t.id : Int)

/-- No two user documents share an `_id` (the unique `_id` index of the collection). -/
def UniqueUserIds (s : Store) : Prop :=
  (s.users.map (fun u => u.id)).Nodup

/-- The `_id` generated for a creation is new to the store: no liked set holds it. -/
def freshFor (s : Store) : Request → Bool
  | .create _ _ newId _ => s.users.all (fun u => !decide (newId ∈ u.likedTales))
  | _ => true

/-- Every creation of the run generates an `_id` that is new at that point of the run. -/
def freshRun (verify : JwtVerify) (s : Store) : List Request → Bool
  | [] => true
  | r :: rs => freshFor s r && freshRun verify (step verify noFaults s r).1 rs

/-! ## Example data -/

/-- A verifier that accepts exactly the tokens `alice` (user 1) and `bob` (user 2). -/
def exVerify : JwtVerify := fun token =>
  if token = "alice" then some ⟨some 1⟩ else if token = "bob" then some ⟨some 2⟩ else none

/-- A public tale of user 1. -/
def exPublicTale : Tale :=
  { id := 10, title := "The Fox", content := "Once upon a time", ageRange := "6-8",
    topic := "foxes", isPublic := true, likes := 0, author := 1, createdAt := 0 }

/-- A private tale of user 1. -/
def exPrivateTale : Tale :=
  { id := 11, title := "The Owl", content := "One night", ageRange := "3-5",
    topic := "owls", isPublic := false, likes := 0, author := 1, createdAt := 1 }

/-- User 1, who likes nothing. -/
def exAlice : User :=
  { id := 1, name := "Alice", email := "alice@example.org", password := "x",
    likedTales := [], createdAt := 0 }

/-- User 2, who likes nothing. -/
def exBob : User :=
  { id := 2, name := "Bob", email := "bob@example.org", password := "y",
    likedTales := [], createdAt := 0 }

/-- A store with two tales and two users in which nothing is liked. -/
def exStore : Store := { tales := [exPublicTale, exPrivateTale], users := [exAlice, exBob] }

/-- The example store after user 2 liked the tale 11, which has since become private. -/
def exLikedStore : Store :=
  { tales := [exPublicTale, { exPrivateTale with likes := 1 }],
    users := [exAlice, { exBob with likedTales := [11] }] }

/-- The oracle under which exactly store call 3, the `tale.save()` of the like and
unlike handlers, fails. -/
def exTaleSaveFails : StoreFaults := fun k => if k = 3 then some .other else none

/-- A run through all five mutating routes: user 2 likes tale 10, user 1 creates tale 12
and likes it, makes tale 10 private, user 2 unlikes tale 10, user 1 deletes tale 12. -/
def exRequests : List Request :=
  [ .like (some "Bearer bob") 10,
    .create (some "Bearer alice")
      { title := some " The Hare ", content := some "Long ago", ageRange := some "9-12",
        topic := some "hares", isPublic := some true } 12 5,
    .like (some "Bearer alice") 12,
    .update (some "Bearer alice") 10 { title := none, content := none, isPublic := some false },
    .unlike (some "Bearer bob") 10,
    .delete (some "Bearer alice") 12 ]

/-- The example store without the document of user 1, the author of both tales. -/
def exOrphanStore : Store := { tales := [exPublicTale, exPrivateTale], users := [exBob] }

/-- Generation parameters with every optional field absent. -/
def exParams : GenerationParams :=
  { title := some "The Fox", ageRange := some "3-5", topic := some "foxes",
    mainCharacter := none, setting := none, mood := none, length := none, moralLesson := none }

/-! ## Lemmas on the store -/

theorem findTale_id {s : Store} {id : TaleId} {t : Tale}
    (h : Tale.findById s id = some t) : t.id = id := by
  have := List.find?_some h
  simpa using this

theorem findUser_id {s : Store} {id : UserId} {u : User}
    (h : User.findById s id = some u) : u.id = id := by
  have := List.find?_some h
  simpa using this

theorem findTale_mem {s : Store} {id : TaleId} {t : Tale}
    (h : Tale.findById s id = some t) : t ∈ s.tales :=
  List.mem_of_find?_eq_some h

theorem findUser_mem {s : Store} {id : UserId} {u : User}
    (h : User.findById s id = some u) : u ∈ s.users :=
  List.mem_of_find?_eq_some h

theorem find?_map_replace {α : Type} (f : α → Nat) (l : List α) (k : Nat) (x y : α)
    (hy : f y = k) (h : l.find? (fun z => f z == k) = some x) :
    (l.map (fun z => if f z = k then y else z)).find? (fun z => f z == k) = some y := by
  induction l with
  | nil => simp at h
  | cons a l ih =>
    by_cases hak : f a = k
    · simp only [List.map_cons, List.find?_cons, hak, if_true, hy, beq_self_eq_true]
    · have hb : (f a == k) = false := by simpa using hak
      have h2 : l.find? (fun z => f z == k) = some x := by
        simpa only [List.find?_cons, hb] using h
      simpa only [List.map_cons, List.find?_cons, hak, if_false, hb] using ih h2

theorem findTale_save {s : Store} {id : TaleId} {t t1 : Tale}
    (h : Tale.findById s id = some t) (h1 : t1.id = id) :
    Tale.findById (Tale.save s t1) id = some t1 := by
  unfold Tale.findById Tale.save
  simp only [h1]
  exact find?_map_replace (fun z : Tale => z.id) s.tales id t t1 h1 h

theorem findUser_save {s : Store} {id : UserId} {u u1 : User}
    (h : User.findById s id = some u) (h1 : u1.id = id) :
    User.findById (User.save s u1) id = some u1 := by
  unfold User.findById User.save
  simp only [h1]
  exact find?_map_replace (fun z : User => z.id) s.users id u u1 h1 h

@[simp]
theorem findTale_userSave (s : Store) (u : User) (id : TaleId) :
    Tale.findById (User.save s u) id = Tale.findById s id := rfl

@[simp]
theorem findUser_taleSave (s : Store) (t : Tale) (id : UserId) :
    User.findById (Tale.save s t) id = User.findById s id := rfl

/-- The like handler when no store call fails and its three checks pass. -/
theorem likeHandler_ok {s : Store} {P : UserId} {T : TaleId} {tale : Tale} {user : User}
    (hT : Tale.findById s T = some tale) (hpub : tale.isPublic = true)
    (hU : User.findById s P = some user) (hnot : T ∉ user.likedTales) :
    likeHandler noFaults s (some P) T =
      (Tale.save (User.save s { user with likedTales := user.likedTales ++ [T] })
          { tale with likes := tale.likes + 1 },
        ⟨200, .likes (tale.likes + 1)⟩) := by
  have hid : tale.id = T := findTale_id hT
  simp [likeHandler, noFaults, hT, hpub, hU, hid, hnot]

/-- The like handler on a pair that is already liked. -/
theorem likeHandler_already {s : Store} {P : UserId} {T : TaleId} {tale : Tale} {user : User}
    (hT : Tale.findById s T = some tale) (hpub : tale.isPublic = true)
    (hU : User.findById s P = some user) (hin : T ∈ user.likedTales) :
    likeHandler noFaults s (some P) T = (s, ⟨400, .message "Tale already liked"⟩) := by
  have hid : tale.id = T := findTale_id hT
  simp [likeHandler, noFaults, hT, hpub, hU, hid, hin]

/-- The unlike handler when no store call fails and the pair is liked. -/
theorem unlikeHandler_ok {s : Store} {P : UserId} {T : TaleId} {tale : Tale} {user : User}
    (hT : Tale.findById s T = some tale)
    (hU : User.findById s P = some user) (hin : T ∈ user.likedTales) :
    unlikeHandler noFaults s (some P) T =
      (Tale.save
          (User.save s { user with likedTales := user.likedTales.filter (fun x => x != T) })
          { tale with likes := max 0 (tale.likes - 1) },
        ⟨200, .likes (max 0 (tale.likes - 1))⟩) := by
  have hid : tale.id = T := findTale_id hT
  simp [unlikeHandler, noFaults, hT, hU, hid, hin]

/-- The unlike handler on a pair that is not liked. -/
theorem unlikeHandler_not {s : Store} {P : UserId} {T : TaleId} {tale : Tale} {user : User}
    (hT : Tale.findById s T = some tale)
    (hU : User.findById s P = some user) (hnot : T ∉ user.likedTales) :
    unlikeHandler noFaults s (some P) T = (s, ⟨400, .message "Tale not liked yet"⟩) := by
  have hid : tale.id = T := findTale_id hT
  simp [unlikeHandler, noFaults, hT, hU, hid, hnot]

/-! ## Lemmas on the like counter -/

theorem map_replace_ids {α : Type} (f : α → Nat) (l : List α) (y : α) :
    (l.map (fun z => if f z = f y then y else z)).map f = l.map f := by
  rw [List.map_map]
  apply List.map_congr_left
  intro z _
  by_cases h : f z = f y
  · simp [h]
  · simp [h]

theorem countP_map_replace {α : Type} (f : α → Nat) (q : α → Bool) (l : List α) (x y : α)
    (hnd : (l.map f).Nodup) (hx : x ∈ l) (hy : f y = f x) :
    (l.map (fun z => if f z = f y then y else z)).countP q + (if q x then 1 else 0)
      = l.countP q + (if q y then 1 else 0) := by
  induction l with
  | nil => simp at hx
  | cons a l ih =>
    rw [List.map_cons, List.nodup_cons] at hnd
    obtain ⟨hnot, hnd1⟩ := hnd
    rcases List.mem_cons.mp hx with hxa | hxl
    · subst hxa
      have hid : l.map (fun z => if f z = f y then y else z) = l := by
        conv_rhs => rw [← List.map_id l]
        apply List.map_congr_left
        intro z hz
        have : f z ≠ f y := by
          intro e
          apply hnot
          rw [← hy, ← e]
          exact List.mem_map_of_mem f hz
        simp [this]
      rw [List.map_cons, hid, if_pos hy.symm]
      simp only [List.countP_cons]
      omega
    · have hne : f a ≠ f y := by
        intro e
        apply hnot
        rw [e, hy]
        exact List.mem_map_of_mem f hxl
      have := ih hnd1 hxl
      simp only [List.map_cons, hne, if_false, List.countP_cons]
      omega

theorem UniqueUserIds_userSave {s : Store} (u : User) (h : UniqueUserIds s) :
    UniqueUserIds (User.save s u) := by
  unfold UniqueUserIds User.save at *
  simpa [map_replace_ids (fun z : User => z.id) s.users u] using h

theorem likeCount_userSave {s : Store} {user : User} (u1 : User) (x : TaleId)
    (hu : UniqueUserIds s) (hmem : user ∈ s.users) (hid : u1.id = user.id) :
    likeCount (User.save s u1) x + (if x ∈ user.likedTales then 1 else 0)
      = likeCount s x + (if x ∈ u1.likedTales then 1 else 0) := by
  have := countP_map_replace (fun z : User => z.id) (fun u => decide (x ∈ u.likedTales))
    s.users user u1 hu hmem hid
  simpa [likeCount, User.save] using this

@[simp]
theorem likeCount_taleSave (s : Store) (t : Tale) (y : TaleId) :
    likeCount (Tale.save s t) y = likeCount s y := rfl

theorem CounterInv_like {s : Store} {P : UserId} {T : TaleId} {tale : Tale} {user : User}
    (hu : UniqueUserIds s) (hinv : CounterInv s)
    (hT : Tale.findById s T = some tale) (hU : User.findById s P = some user)
    (hnot : T ∉ user.likedTales) :
    CounterInv (Tale.save (User.save s { user with likedTales := user.likedTales ++ [T] })
      { tale with likes := tale.likes + 1 }) := by
  have hid : tale.id = T := findTale_id hT
  intro t ht
  obtain ⟨x, hx, rfl⟩ := List.mem_map.mp ht
  have hx : x ∈ s.tales := hx
  have hcount : ∀ y, likeCount (User.save s
      { user with likedTales := user.likedTales ++ [T] }) y
        + (if y ∈ user.likedTales then 1 else 0)
      = likeCount s y + (if y ∈ user.likedTales ++ [T] then 1 else 0) := fun y =>
    likeCount_userSave { user with likedTales := user.likedTales ++ [T] } y hu
      (findUser_mem hU) rfl
  rw [likeCount_taleSave]
  by_cases hxT : x.id = T
  · have h1 := hinv tale (findTale_mem hT)
    have h2 := hcount T
    simp only [hnot, if_false, List.mem_append, List.mem_singleton, or_true, if_true] at h2
    simp only [hid, hxT, if_true]
    rw [hid] at h1
    omega
  · have h1 := hinv x hx
    have h2 := hcount x.id
    simp only [List.mem_append, List.mem_singleton, hxT, or_false] at h2
    simp only [hid, hxT, if_false]
    omega

theorem CounterInv_unlike {s : Store} {P : UserId} {T : TaleId} {tale : Tale} {user : User}
    (hu : UniqueUserIds s) (hinv : CounterInv s)
    (hT : Tale.findById s T = some tale) (hU : User.findById s P = some user)
    (hin : T ∈ user.likedTales) :
    CounterInv (Tale.save
      (User.save s { user with likedTales := user.likedTales.filter (fun x => x != T) })
      { tale with likes := max 0 (tale.likes - 1) }) := by
  have hid : tale.id = T := findTale_id hT
  intro t ht
  obtain ⟨x, hx, rfl⟩ := List.mem_map.mp ht
  have hx : x ∈ s.tales := hx
  have hcount : ∀ y, likeCount (User.save s
      { user with likedTales := user.likedTales.filter (fun x => x != T) }) y
        + (if y ∈ user.likedTales then 1 else 0)
      = likeCount s y + (if y ∈ user.likedTales.filter (fun x => x != T) then 1 else 0) :=
    fun y =>
    likeCount_userSave { user with likedTales := user.likedTales.filter (fun x => x != T) }
      y hu (findUser_mem hU) rfl
  rw [likeCount_taleSave]
  by_cases hxT : x.id = T
  · have h1 := hinv tale (findTale_mem hT)
    have h2 := hcount T
    simp only [hin, if_true, List.mem_filter, bne_self_eq_false, Bool.false_eq_true, and_false,
      if_false] at h2
    simp only [hid, hxT, if_true]
    rw [hid] at h1
    have h3 : max 0 (tale.likes - 1) = tale.likes - 1 := max_eq_right (by omega)
    rw [h3]
    omega
  · have h1 := hinv x hx
    have h2 := hcount x.id
    have h3 : (x.id ∈ user.likedTales.filter (fun x => x != T)) ↔ x.id ∈ user.likedTales := by
      simp [List.mem_filter, hxT]
    simp only [h3] at h2
    simp only [hid, hxT, if_false]
    omega

theorem CounterInv_update {s : Store} {id : TaleId} {tale t1 : Tale} (hinv : CounterInv s)
    (hT : Tale.findById s id = some tale) (hid : t1.id = tale.id) (hl : t1.likes = tale.likes) :
    CounterInv (Tale.save s t1) := by
  intro t ht
  obtain ⟨x, hx, rfl⟩ := List.mem_map.mp ht
  have hx : x ∈ s.tales := hx
  have h1 := hinv tale (findTale_mem hT)
  by_cases hxT : x.id = t1.id
  · simp only [hxT, if_true]
    rw [hl, hid, h1]
    rfl
  · simp only [hxT, if_false]
    exact hinv x hx

theorem CounterInv_remove {s : Store} (t0 : Tale) (hinv : CounterInv s) :
    CounterInv (Tale.remove s t0) := by
  intro t ht
  have ht1 : t ∈ s.tales := (List.mem_filter.mp ht).1
  exact hinv t ht1

theorem CounterInv_insert {s : Store} (t0 : Tale) (hinv : CounterInv s)
    (hl : t0.likes = 0) (hfresh : s.users.all (fun u => !decide (t0.id ∈ u.likedTales)) = true) :
    CounterInv (Tale.insert s t0) := by
  intro t ht
  rcases List.mem_append.mp ht with h | h
  · exact hinv t h
  · have ht0 : t = t0 := by simpa using h
    subst ht0
    have hz : likeCount (Tale.insert s t) t.id = 0 := by
      unfold likeCount Tale.insert
      rw [List.countP_eq_zero]
      intro u hmem
      have := List.all_eq_true.mp hfresh u hmem
      simpa using this
    rw [hl, hz]
    rfl

theorem applyPatch_id (tale : Tale) (b : PatchBody) : (applyPatch tale b).id = tale.id := by
  unfold applyPatch
  cases b.isPublic <;> simp only [] <;> split_ifs <;> rfl

theorem applyPatch_likes (tale : Tale) (b : PatchBody) :
    (applyPatch tale b).likes = tale.likes := by
  unfold applyPatch
  cases b.isPublic <;> simp only [] <;> split_ifs <;> rfl

theorem postLike_preserves (verify : JwtVerify) (s : Store) (h : Option String) (id : TaleId)
    (hu : UniqueUserIds s) (hinv : CounterInv s) :
    CounterInv (postLike verify noFaults s h id).1
      ∧ UniqueUserIds (postLike verify noFaults s h id).1 := by
  unfold postLike
  cases auth verify h with
  | error r => exact ⟨hinv, hu⟩
  | ok ru =>
    simp only []
    cases hT : Tale.findById s id with
    | none => simpa [likeHandler, noFaults, hT] using ⟨hinv, hu⟩
    | some tale =>
      by_cases hpub : tale.isPublic = true
      swap
      · simpa [likeHandler, noFaults, hT, hpub] using ⟨hinv, hu⟩
      cases ru with
      | none => simpa [likeHandler, noFaults, hT, hpub] using ⟨hinv, hu⟩
      | some P =>
        cases hU : User.findById s P with
        | none => simpa [likeHandler, noFaults, hT, hpub, hU] using ⟨hinv, hu⟩
        | some user =>
          by_cases hin : id ∈ user.likedTales
          · rw [likeHandler_already hT hpub hU hin]
            exact ⟨hinv, hu⟩
          · rw [likeHandler_ok hT hpub hU hin]
            exact ⟨CounterInv_like hu hinv hT hU hin, UniqueUserIds_userSave _ hu⟩

theorem deleteLike_preserves (verify : JwtVerify) (s : Store) (h : Option String)
    (id : TaleId) (hu : UniqueUserIds s) (hinv : CounterInv s) :
    CounterInv (deleteLike verify noFaults s h id).1
      ∧ UniqueUserIds (deleteLike verify noFaults s h id).1 := by
  unfold deleteLike
  cases auth verify h with
  | error r => exact ⟨hinv, hu⟩
  | ok ru =>
    simp only []
    cases hT : Tale.findById s id with
    | none => simpa [unlikeHandler, noFaults, hT] using ⟨hinv, hu⟩
    | some tale =>
      cases ru with
      | none => simpa [unlikeHandler, noFaults, hT] using ⟨hinv, hu⟩
      | some P =>
        cases hU : User.findById s P with
        | none => simpa [unlikeHandler, noFaults, hT, hU] using ⟨hinv, hu⟩
        | some user =>
          by_cases hin : id ∈ user.likedTales
          · rw [unlikeHandler_ok hT hU hin]
            exact ⟨CounterInv_unlike hu hinv hT hU hin, UniqueUserIds_userSave _ hu⟩
          · rw [unlikeHandler_not hT hU hin]
            exact ⟨hinv, hu⟩

theorem patchTale_preserves (verify : JwtVerify) (s : Store) (h : Option String)
    (id : TaleId) (b : PatchBody) (hu : UniqueUserIds s) (hinv : CounterInv s) :
    CounterInv (patchTale verify noFaults s h id b).1
      ∧ UniqueUserIds (patchTale verify noFaults s h id b).1 := by
  unfold patchTale
  cases auth verify h with
  | error r => exact ⟨hinv, hu⟩
  | ok ru =>
    simp only []
    cases hT : Tale.findById s id with
    | none => simpa [updateHandler, noFaults, hT] using ⟨hinv, hu⟩
    | some tale =>
      cases ru with
      | none => simpa [updateHandler, noFaults, hT] using ⟨hinv, hu⟩
      | some P =>
        simp only [updateHandler, noFaults, hT]
        by_cases h1 : tale.author ≠ P
        · rw [if_pos h1]
          exact ⟨hinv, hu⟩
        · rw [if_neg h1]
          split
          · exact ⟨hinv, hu⟩
          · exact ⟨CounterInv_update hinv hT (applyPatch_id tale b) (applyPatch_likes tale b), hu⟩

theorem deleteTale_preserves (verify : JwtVerify) (s : Store) (h : Option String)
    (id : TaleId) (hu : UniqueUserIds s) (hinv : CounterInv s) :
    CounterInv (deleteTale verify noFaults s h id).1
      ∧ UniqueUserIds (deleteTale verify noFaults s h id).1 := by
  unfold deleteTale
  cases auth verify h with
  | error r => exact ⟨hinv, hu⟩
  | ok ru =>
    simp only []
    cases hT : Tale.findById s id with
    | none => simpa [deleteHandler, noFaults, hT] using ⟨hinv, hu⟩
    | some tale =>
      cases ru with
      | none => simpa [deleteHandler, noFaults, hT] using ⟨hinv, hu⟩
      | some P =>
        simp only [deleteHandler, noFaults, hT]
        split_ifs
        · exact ⟨hinv, hu⟩
        · exact ⟨CounterInv_remove tale hinv, hu⟩

theorem postTale_preserves (verify : JwtVerify) (s : Store) (h : Option String)
    (b : CreateBody) (newId : TaleId) (now : Nat) (hu : UniqueUserIds s) (hinv : CounterInv s)
    (hfresh : s.users.all (fun u => !decide (newId ∈ u.likedTales)) = true) :
    CounterInv (postTale verify noFaults s h b newId now).1
      ∧ UniqueUserIds (postTale verify noFaults s h b newId now).1 := by
  unfold postTale
  cases auth verify h with
  | error r => exact ⟨hinv, hu⟩
  | ok ru =>
    simp only []
    cases ru with
    | none =>
      simp only [createHandler]
      split_ifs <;> exact ⟨hinv, hu⟩
    | some P =>
      simp only [createHandler, noFaults]
      split_ifs
      · exact ⟨hinv, hu⟩
      · exact ⟨hinv, hu⟩
      · exact ⟨hinv, hu⟩
      · exact ⟨CounterInv_insert _ hinv rfl hfresh, hu⟩

theorem step_preserves (verify : JwtVerify) (s : Store) (r : Request)
    (hu : UniqueUserIds s) (hinv : CounterInv s) (hfresh : freshFor s r = true) :
    CounterInv (step verify noFaults s r).1 ∧ UniqueUserIds (step verify noFaults s r).1 := by
  cases r with
  | create h b newId now => exact postTale_preserves verify s h b newId now hu hinv hfresh
  | update h id b => exact patchTale_preserves verify s h id b hu hinv
  | delete h id => exact deleteTale_preserves verify s h id hu hinv
  | like h id => exact postLike_preserves verify s h id hu hinv
  | unlike h id => exact deleteLike_preserves verify s h id hu hinv

theorem run_preserves (verify : JwtVerify) (reqs : List Request) :
    ∀ s : Store, UniqueUserIds s → CounterInv s → freshRun verify s reqs = true →
      CounterInv (run verify s reqs) ∧ UniqueUserIds (run verify s reqs) := by
  induction reqs with
  | nil => intro s hu hinv _; exact ⟨hinv, hu⟩
  | cons r rs ih =>
    intro s hu hinv hfresh
    simp only [freshRun, Bool.and_eq_true] at hfresh
    have h1 := step_preserves verify s r hu hinv hfresh.1
    exact ih _ h1.2 h1.1 hfresh.2

/-! ## Generation request: word count and optional sections -/

/-- C8: the target word count follows the table (3-5: 200/350/500, 6-8: 350/600/900,
9-12: 500/800/1200), every other age range (also an absent one) uses the 9-12 row, and an
absent length counts as `medium`. -/
theorem targetWordCount_table (p : GenerationParams) :
    (targetWordCount { p with ageRange := some "3-5", length := some "short" } = 200
      ∧ targetWordCount { p with ageRange := some "3-5", length := some "medium" } = 350
      ∧ targetWordCount { p with ageRange := some "3-5", length := some "long" } = 500)
    ∧ (targetWordCount { p with ageRange := some "6-8", length := some "short" } = 350
      ∧ targetWordCount { p with ageRange := some "6-8", length := some "medium" } = 600
      ∧ targetWordCount { p with ageRange := some "6-8", length := some "long" } = 900)
    ∧ (∀ a : Option String, a ≠ some "3-5" → a ≠ some "6-8" →
        targetWordCount { p with ageRange := a, length := some "short" } = 500
        ∧ targetWordCount { p with ageRange := a, length := some "medium" } = 800
        ∧ targetWordCount { p with ageRange := a, length := some "long" } = 1200)
    ∧ targetWordCount { p with ageRange := some "9-12", length := some "long" } = 1200
    ∧ targetWordCount { p with ageRange := some "unknown", length := some "medium" } = 800
    ∧ (∀ a : Option String,
        targetWordCount { p with ageRange := a, length := none }
          = targetWordCount { p with ageRange := a, length := some "medium" }) := by
  refine ⟨⟨?_, ?_, ?_⟩, ⟨?_, ?_, ?_⟩, ?_, ?_, ?_, ?_⟩
  · simp [targetWordCount, GenerationParams.lengthD]
  · simp [targetWordCount, GenerationParams.lengthD]
  · simp [targetWordCount, GenerationParams.lengthD]
  · simp [targetWordCount, GenerationParams.lengthD]
  · simp [targetWordCount, GenerationParams.lengthD]
  · simp [targetWordCount, GenerationParams.lengthD]
  · intro a h1 h2
    simp [targetWordCount, GenerationParams.lengthD, h1, h2]
  · simp [targetWordCount, GenerationParams.lengthD]
  · simp [targetWordCount, GenerationParams.lengthD]
  · intro a
    simp [targetWordCount, GenerationParams.lengthD]

/-- C9 (as stated, refuted): for age range 3-5 the unrecognised length `huge` gives 500
words, the long column, and not the 350 of the medium column. -/
theorem unknown_length_not_medium :
    targetWordCount { exParams with length := some "huge" } = 500
      ∧ targetWordCount { exParams with length := some "huge" } ≠ 350 := by
  decide

/-- C9 (amended): a supplied length other than `short`, `medium` and `long` gives the
long column of the selected row: 500 for 3-5, 900 for 6-8, 1200 for any other age range. -/
theorem unknown_length_long_column (p : GenerationParams) (l : String)
    (hlen : p.length = some l) (hs : l ≠ "short") (hm : l ≠ "medium") (_hl : l ≠ "long") :
    targetWordCount p =
        (if p.ageRange = some "3-5" then 500 else if p.ageRange = some "6-8" then 900 else 1200)
      ∧ targetWordCount p = targetWordCount { p with length := some "long" } := by
  simp [targetWordCount, GenerationParams.lengthD, hlen, hs, hm]

/-- Witness of `unknown_length_long_column` at age range 3-5 and length `huge`. -/
theorem unknown_length_long_column_witness :
    targetWordCount { exParams with length := some "huge" } =
        (if ({ exParams with length := some "huge" } : GenerationParams).ageRange = some "3-5"
          then 500
          else if ({ exParams with length := some "huge" } : GenerationParams).ageRange
            = some "6-8" then 900 else 1200)
      ∧ targetWordCount { exParams with length := some "huge" }
        = targetWordCount
            { ({ exParams with length := some "huge" } : GenerationParams) with
              length := some "long" } :=
  unknown_length_long_column { exParams with length := some "huge" } "huge" rfl
    (by decide) (by decide) (by decide)

/-- C10: each of the three optional sections is empty when its field is absent or empty
and is otherwise the one fixed sentence around the value of that field alone. -/
theorem optional_sections :
    (∀ p : GenerationParams, p.mainCharacter = none ∨ p.mainCharacter = some "" →
        characterDescription p = "")
    ∧ (∀ (p : GenerationParams) (x : String), p.mainCharacter = some x → x ≠ "" →
        characterDescription p = "The main character is " ++ x ++ ".")
    ∧ (∀ p : GenerationParams, p.setting = none ∨ p.setting = some "" →
        settingDescription p = "")
    ∧ (∀ (p : GenerationParams) (x : String), p.setting = some x → x ≠ "" →
        settingDescription p = "The story takes place in " ++ x ++ ".")
    ∧ (∀ p : GenerationParams, p.moralLesson = none ∨ p.moralLesson = some "" →
        moralLessonInstruction p = "")
    ∧ (∀ (p : GenerationParams) (x : String), p.moralLesson = some x → x ≠ "" →
        moralLessonInstruction p = "The story should teach a moral lesson about " ++ x ++ ".")
    ∧ (∀ p q : GenerationParams,
        (p.mainCharacter = q.mainCharacter → characterDescription p = characterDescription q)
        ∧ (p.setting = q.setting → settingDescription p = settingDescription q)
        ∧ (p.moralLesson = q.moralLesson → moralLessonInstruction p = moralLessonInstruction q))
    ∧ characterDescription { exParams with mainCharacter := some "" } = ""
    ∧ characterDescription { exParams with mainCharacter := some "a fox" }
        = "The main character is a fox." := by
  refine ⟨?_, ?_, ?_, ?_, ?_, ?_, ?_, ?_, ?_⟩
  · rintro p (h | h) <;> simp [characterDescription, GenerationParams.mainCharacterD, truthy, h]
  · intro p x h hx
    simp [characterDescription, GenerationParams.mainCharacterD, truthy, h, hx]
  · rintro p (h | h) <;> simp [settingDescription, GenerationParams.settingD, truthy, h]
  · intro p x h hx
    simp [settingDescription, GenerationParams.settingD, truthy, h, hx]
  · rintro p (h | h) <;> simp [moralLessonInstruction, GenerationParams.moralLessonD, truthy, h]
  · intro p x h hx
    simp [moralLessonInstruction, GenerationParams.moralLessonD, truthy, h, hx]
  · intro p q
    refine ⟨fun h => ?_, fun h => ?_, fun h => ?_⟩
    · simp [characterDescription, GenerationParams.mainCharacterD, h]
    · simp [settingDescription, GenerationParams.settingD, h]
    · simp [moralLessonInstruction, GenerationParams.moralLessonD, h]
  · decide
  · decide

/-! ## Reading a tale -/

/-- C5 (as stated, refuted): on a private tale a credential that fails verification is
answered with 401 `Invalid token`, not with 403 `Access denied`. -/
theorem invalid_token_on_private_tale :
    Tale.findById exStore 11 = some exPrivateTale
      ∧ exPrivateTale.isPublic = false
      ∧ decodeUserId exVerify "Bearer mallory" = none
      ∧ getTale exVerify noFaults exStore (some "Bearer mallory") 11
          = ⟨401, .message "Invalid token"⟩
      ∧ getTale exVerify noFaults exStore (some "Bearer mallory") 11
          ≠ ⟨403, .message "Access denied"⟩ := by
  decide

/-- C5 (amended): for an existing private tale whose author document exists, `GET /:id`
returns the tale exactly when the supplied credential decodes to the author; without a
credential and for a verified principal other than the author it answers 403
`Access denied`; for a credential that fails verification it answers 401 `Invalid token`. -/
theorem private_read (verify : JwtVerify) (faults : StoreFaults) (s : Store)
    (authorization : Option String) (id : TaleId) (tale : Tale) (a : User)
    (hf : faults 0 = none) (hT : Tale.findById s id = some tale)
    (hpriv : tale.isPublic = false) (hA : User.findById s tale.author = some a) :
    (truthyHeader authorization = none →
        getTale verify faults s authorization id = ⟨403, .message "Access denied"⟩)
    ∧ (∀ h, truthyHeader authorization = some h → decodeUserId verify h = none →
        getTale verify faults s authorization id = ⟨401, .message "Invalid token"⟩)
    ∧ (∀ h uid, truthyHeader authorization = some h → decodeUserId verify h = some uid →
        uid ≠ tale.author →
        getTale verify faults s authorization id = ⟨403, .message "Access denied"⟩)
    ∧ ((∃ v, getTale verify faults s authorization id = ⟨200, .taleView v⟩ ∧ v.tale = tale)
        ↔ ∃ h, truthyHeader authorization = some h
            ∧ decodeUserId verify h = some tale.author) := by
  have ha : a.id = tale.author := findUser_id hA
  refine ⟨?_, ?_, ?_, ?_⟩
  · intro h0
    simp [getTale, hf, hT, privateGate, hpriv, h0]
  · intro h h0 h1
    simp [getTale, hf, hT, privateGate, hpriv, h0, h1]
  · intro h uid h0 h1 hne
    have hne2 : ¬ a.id = uid := by rw [ha]; exact fun e => hne e.symm
    simp [getTale, hf, hT, privateGate, hpriv, h0, h1, populateAuthor, hA, hne2]
  · constructor
    · rintro ⟨v, hv, -⟩
      cases h0 : truthyHeader authorization with
      | none => simp [getTale, hf, hT, privateGate, hpriv, h0] at hv
      | some h =>
        cases h1 : decodeUserId verify h with
        | none => simp [getTale, hf, hT, privateGate, hpriv, h0, h1] at hv
        | some uid =>
          by_cases hu : a.id = uid
          · exact ⟨h, rfl, by rw [← ha, hu, h1]⟩
          · simp [getTale, hf, hT, privateGate, hpriv, h0, h1, populateAuthor, hA, hu] at hv
    · rintro ⟨h, h0, h1⟩
      refine ⟨{ tale := tale, author := populateAuthor s tale,
                isLiked := likeInfo verify faults s authorization tale }, ?_, rfl⟩
      simp [getTale, hf, hT, privateGate, hpriv, h0, h1, populateAuthor, hA, ha]

/-- Witness of `private_read`: the private tale 11 of the example store, read by its
author with a valid token. -/
theorem private_read_witness :
    (truthyHeader (some "Bearer alice") = none →
        getTale exVerify noFaults exStore (some "Bearer alice") 11
          = ⟨403, .message "Access denied"⟩)
    ∧ (∀ h, truthyHeader (some "Bearer alice") = some h → decodeUserId exVerify h = none →
        getTale exVerify noFaults exStore (some "Bearer alice") 11
          = ⟨401, .message "Invalid token"⟩)
    ∧ (∀ h uid, truthyHeader (some "Bearer alice") = some h →
        decodeUserId exVerify h = some uid → uid ≠ exPrivateTale.author →
        getTale exVerify noFaults exStore (some "Bearer alice") 11
          = ⟨403, .message "Access denied"⟩)
    ∧ ((∃ v, getTale exVerify noFaults exStore (some "Bearer alice") 11 = ⟨200, .taleView v⟩
          ∧ v.tale = exPrivateTale)
        ↔ ∃ h, truthyHeader (some "Bearer alice") = some h
            ∧ decodeUserId exVerify h = some exPrivateTale.author) :=
  private_read exVerify noFaults exStore (some "Bearer alice") 11 exPrivateTale exAlice
    rfl (by decide) rfl (by decide)

/-- When the author document of a private tale is missing, the populated `author` is
`null`, the comparison `tale.author._id` throws inside the `try` block and even the author
is answered 401 `Invalid token`. -/
theorem private_read_orphan :
    User.findById exOrphanStore exPrivateTale.author = none
      ∧ decodeUserId exVerify "Bearer alice" = some exPrivateTale.author
      ∧ getTale exVerify noFaults exOrphanStore (some "Bearer alice") 11
          = ⟨401, .message "Invalid token"⟩ := by
  decide

/-- C7: for an existing public tale `GET /:id` answers 200 with the tale; without a
credential, and with a credential that fails verification, no `isLiked` is attached; an
attached `isLiked` comes from a credential that decodes to a principal and equals the
membership of the tale id in the liked set of that principal. -/
theorem public_read (verify : JwtVerify) (faults : StoreFaults) (s : Store)
    (authorization : Option String) (id : TaleId) (tale : Tale)
    (hf : faults 0 = none) (hT : Tale.findById s id = some tale)
    (hpub : tale.isPublic = true) :
    (truthyHeader authorization = none →
        getTale verify faults s authorization id
          = ⟨200, .taleView { tale := tale, author := populateAuthor s tale, isLiked := none }⟩)
    ∧ (∀ h, truthyHeader authorization = some h → decodeUserId verify h = none →
        getTale verify faults s authorization id
          = ⟨200, .taleView { tale := tale, author := populateAuthor s tale, isLiked := none }⟩)
    ∧ (∃ v, getTale verify faults s authorization id = ⟨200, .taleView v⟩ ∧ v.tale = tale
        ∧ ∀ b, v.isLiked = some b →
            ∃ h uid user, truthyHeader authorization = some h
              ∧ decodeUserId verify h = some uid ∧ User.findById s uid = some user
              ∧ b = decide (id ∈ user.likedTales))
    ∧ (∀ h uid user, truthyHeader authorization = some h → decodeUserId verify h = some uid →
        faults 1 = none → User.findById s uid = some user →
        getTale verify faults s authorization id
          = ⟨200, .taleView { tale := tale, author := populateAuthor s tale,
                              isLiked := some (decide (id ∈ user.likedTales)) }⟩) := by
  have hid : tale.id = id := findTale_id hT
  refine ⟨?_, ?_, ?_, ?_⟩
  · intro h0
    simp [getTale, hf, hT, privateGate, hpub, likeInfo, h0]
  · intro h h0 h1
    simp [getTale, hf, hT, privateGate, hpub, likeInfo, h0, h1]
  · refine ⟨{ tale := tale, author := populateAuthor s tale,
              isLiked := likeInfo verify faults s authorization tale }, ?_, rfl, ?_⟩
    · simp [getTale, hf, hT, privateGate, hpub]
    · intro b hb
      simp only [likeInfo] at hb
      cases h0 : truthyHeader authorization with
      | none => simp [h0] at hb
      | some h =>
        cases h1 : decodeUserId verify h with
        | none => simp [h0, h1] at hb
        | some uid =>
          cases h2 : faults 1 with
          | some e => simp [h0, h1, h2] at hb
          | none =>
            cases h3 : User.findById s uid with
            | none => simp [h0, h1, h2, h3] at hb
            | some user =>
              refine ⟨h, uid, user, rfl, h1, h3, ?_⟩
              simp [h0, h1, h2, h3, hid] at hb
              simp [← hb]
  · intro h uid user h0 h1 h2 h3
    simp [getTale, hf, hT, privateGate, hpub, likeInfo, h0, h1, h2, h3, hid]

/-- Witness of `public_read`: the public tale 10 of the example store read with the
token of user 2. -/
theorem public_read_witness :
    (truthyHeader (some "Bearer bob") = none →
        getTale exVerify noFaults exStore (some "Bearer bob") 10
          = ⟨200, .taleView { tale := exPublicTale, author := populateAuthor exStore exPublicTale,
                              isLiked := none }⟩)
    ∧ (∀ h, truthyHeader (some "Bearer bob") = some h → decodeUserId exVerify h = none →
        getTale exVerify noFaults exStore (some "Bearer bob") 10
          = ⟨200, .taleView { tale := exPublicTale, author := populateAuthor exStore exPublicTale,
                              isLiked := none }⟩)
    ∧ (∃ v, getTale exVerify noFaults exStore (some "Bearer bob") 10 = ⟨200, .taleView v⟩
        ∧ v.tale = exPublicTale
        ∧ ∀ b, v.isLiked = some b →
            ∃ h uid user, truthyHeader (some "Bearer bob") = some h
              ∧ decodeUserId exVerify h = some uid ∧ User.findById exStore uid = some user
              ∧ b = decide (10 ∈ user.likedTales))
    ∧ (∀ h uid user, truthyHeader (some "Bearer bob") = some h →
        decodeUserId exVerify h = some uid →
        noFaults 1 = none → User.findById exStore uid = some user →
        getTale exVerify noFaults exStore (some "Bearer bob") 10
          = ⟨200, .taleView { tale := exPublicTale, author := populateAuthor exStore exPublicTale,
                              isLiked := some (decide (10 ∈ user.likedTales)) }⟩) :=
  public_read exVerify noFaults exStore (some "Bearer bob") 10 exPublicTale
    rfl (by decide) rfl

/-! ## Updating and deleting a tale -/

/-- C6: for an existing tale, public or private, and a verified principal who is not its
author, `PATCH /:id` (for every body) and `DELETE /:id` both answer 403 and leave the
store as it was. -/
theorem non_author_denied (verify : JwtVerify) (faults : StoreFaults) (s : Store)
    (authHeader : Option String) (P : UserId) (id : TaleId) (tale : Tale) (b : PatchBody)
    (hauth : auth verify authHeader = .ok (some P)) (hf : faults 0 = none)
    (hT : Tale.findById s id = some tale) (hne : P ≠ tale.author) :
    patchTale verify faults s authHeader id b = (s, ⟨403, .message "User not authorized"⟩)
    ∧ deleteTale verify faults s authHeader id = (s, ⟨403, .message "User not authorized"⟩) := by
  have hne2 : ¬ tale.author = P := fun e => hne e.symm
  constructor
  · simp [patchTale, hauth, updateHandler, hf, hT, hne2]
  · simp [deleteTale, hauth, deleteHandler, hf, hT, hne2]

/-- Witness of `non_author_denied`: user 2 tries to change and to delete the private
tale 11 of user 1. -/
theorem non_author_denied_witness :
    patchTale exVerify noFaults exStore (some "Bearer bob") 11
        { title := some "Mine now", content := none, isPublic := some true }
      = (exStore, ⟨403, .message "User not authorized"⟩)
    ∧ deleteTale exVerify noFaults exStore (some "Bearer bob") 11
      = (exStore, ⟨403, .message "User not authorized"⟩) :=
  non_author_denied exVerify noFaults exStore (some "Bearer bob") 2 11 exPrivateTale
    { title := some "Mine now", content := none, isPublic := some true }
    (by rfl) rfl (by decide) (by decide)

/-! ## Liking and unliking -/

/-- C1: when a verified principal `P` with a user document likes an existing public tale
`T` that is not in the liked set, the counter of `T` is a safe integer and no store call
fails, `POST /:id/like` answers 200 with `likes` one above the old counter, the stored
counter is that value (which a Number holds exactly, being at most `2 ^ 53` in absolute
value) and the liked set of `P` holds `T`; the same request repeated on the resulting
store answers 400 `Tale already liked` and leaves the store as it is. -/
theorem like_then_like_again (verify : JwtVerify) (s : Store) (authHeader : Option String)
    (P : UserId) (T : TaleId) (tale : Tale) (user : User)
    (hauth : auth verify authHeader = .ok (some P))
    (hT : Tale.findById s T = some tale) (hpub : tale.isPublic = true)
    (hU : User.findById s P = some user) (hnot : T ∉ user.likedTales)
    (hsafe : isSafeInteger tale.likes = true) :
    (postLike verify noFaults s authHeader T).2 = ⟨200, .likes (tale.likes + 1)⟩
    ∧ (Tale.findById (postLike verify noFaults s authHeader T).1 T).map (fun t => t.likes)
        = some (tale.likes + 1)
    ∧ (-(2 ^ 53) ≤ tale.likes + 1 ∧ tale.likes + 1 ≤ 2 ^ 53)
    ∧ (∃ user1, User.findById (postLike verify noFaults s authHeader T).1 P = some user1
        ∧ T ∈ user1.likedTales)
    ∧ postLike verify noFaults (postLike verify noFaults s authHeader T).1 authHeader T
        = ((postLike verify noFaults s authHeader T).1, ⟨400, .message "Tale already liked"⟩) := by
  have hid : tale.id = T := findTale_id hT
  have huid : user.id = P := findUser_id hU
  have h1 : postLike verify noFaults s authHeader T =
      (Tale.save (User.save s { user with likedTales := user.likedTales ++ [T] })
          { tale with likes := tale.likes + 1 },
        ⟨200, .likes (tale.likes + 1)⟩) := by
    simp only [postLike, hauth]
    exact likeHandler_ok hT hpub hU hnot
  have hT1 : Tale.findById
      (Tale.save (User.save s { user with likedTales := user.likedTales ++ [T] })
        { tale with likes := tale.likes + 1 }) T
      = some { tale with likes := tale.likes + 1 } :=
    findTale_save (t := tale) (by simpa using hT) hid
  have hU1 : User.findById
      (Tale.save (User.save s { user with likedTales := user.likedTales ++ [T] })
        { tale with likes := tale.likes + 1 }) P
      = some { user with likedTales := user.likedTales ++ [T] } := by
    rw [findUser_taleSave]
    exact findUser_save hU huid
  have hrange : -(2 ^ 53 - 1) ≤ tale.likes ∧ tale.likes ≤ 2 ^ 53 - 1 := by
    simpa [isSafeInteger] using hsafe
  rw [h1]
  refine ⟨rfl, ?_, ?_, ?_, ?_⟩
  · simp only [hT1, Option.map_some']
  · constructor <;> omega
  · exact ⟨_, hU1, by simp⟩
  · simp only [postLike, hauth]
    exact likeHandler_already hT1 hpub hU1 (by simp)

/-- Witness of `like_then_like_again`: user 2 likes the public tale 10 of the example
store. -/
theorem like_then_like_again_witness :
    (postLike exVerify noFaults exStore (some "Bearer bob") 10).2
        = ⟨200, .likes (exPublicTale.likes + 1)⟩
    ∧ (Tale.findById (postLike exVerify noFaults exStore (some "Bearer bob") 10).1 10).map
          (fun t => t.likes)
        = some (exPublicTale.likes + 1)
    ∧ (-(2 ^ 53) ≤ exPublicTale.likes + 1 ∧ exPublicTale.likes + 1 ≤ 2 ^ 53)
    ∧ (∃ user1,
        User.findById (postLike exVerify noFaults exStore (some "Bearer bob") 10).1 2 = some user1
        ∧ 10 ∈ user1.likedTales)
    ∧ postLike exVerify noFaults (postLike exVerify noFaults exStore (some "Bearer bob") 10).1
          (some "Bearer bob") 10
        = ((postLike exVerify noFaults exStore (some "Bearer bob") 10).1,
            ⟨400, .message "Tale already liked"⟩) :=
  like_then_like_again exVerify exStore (some "Bearer bob") 2 10 exPublicTale exBob
    (by rfl) (by decide) rfl (by decide) (by decide) (by decide)

/-- C2: when a verified principal `P` unlikes an existing tale `T` of the liked set,
public or private, the counter of `T` is a safe integer and no store call fails,
`DELETE /:id/like` answers 200 with `max 0 (likes - 1)`, the stored counter is that value
(`likes - 1` being at most `2 ^ 53` in absolute value, a Number holds it exactly) and `T`
has left the liked set of `P`; the same request repeated on the resulting store answers
400 `Tale not liked yet` and leaves the store as it is. -/
theorem unlike_then_unlike_again (verify : JwtVerify) (s : Store)
    (authHeader : Option String) (P : UserId) (T : TaleId) (tale : Tale) (user : User)
    (hauth : auth verify authHeader = .ok (some P))
    (hT : Tale.findById s T = some tale)
    (hU : User.findById s P = some user) (hin : T ∈ user.likedTales)
    (hsafe : isSafeInteger tale.likes = true) :
    (deleteLike verify noFaults s authHeader T).2 = ⟨200, .likes (max 0 (tale.likes - 1))⟩
    ∧ (Tale.findById (deleteLike verify noFaults s authHeader T).1 T).map (fun t => t.likes)
        = some (max 0 (tale.likes - 1))
    ∧ (-(2 ^ 53) ≤ tale.likes - 1 ∧ tale.likes - 1 ≤ 2 ^ 53)
    ∧ (∃ user1, User.findById (deleteLike verify noFaults s authHeader T).1 P = some user1
        ∧ T ∉ user1.likedTales
        ∧ ∀ x, x ≠ T → (x ∈ user1.likedTales ↔ x ∈ user.likedTales))
    ∧ deleteLike verify noFaults (deleteLike verify noFaults s authHeader T).1 authHeader T
        = ((deleteLike verify noFaults s authHeader T).1,
            ⟨400, .message "Tale not liked yet"⟩) := by
  have hid : tale.id = T := findTale_id hT
  have huid : user.id = P := findUser_id hU
  have h1 : deleteLike verify noFaults s authHeader T =
      (Tale.save
          (User.save s { user with likedTales := user.likedTales.filter (fun x => x != T) })
          { tale with likes := max 0 (tale.likes - 1) },
        ⟨200, .likes (max 0 (tale.likes - 1))⟩) := by
    simp only [deleteLike, hauth]
    exact unlikeHandler_ok hT hU hin
  have hT1 : Tale.findById
      (Tale.save
        (User.save s { user with likedTales := user.likedTales.filter (fun x => x != T) })
        { tale with likes := max 0 (tale.likes - 1) }) T
      = some { tale with likes := max 0 (tale.likes - 1) } :=
    findTale_save (t := tale) (by simpa using hT) hid
  have hU1 : User.findById
      (Tale.save
        (User.save s { user with likedTales := user.likedTales.filter (fun x => x != T) })
        { tale with likes := max 0 (tale.likes - 1) }) P
      = some { user with likedTales := user.likedTales.filter (fun x => x != T) } := by
    rw [findUser_taleSave]
    exact findUser_save hU huid
  have hrange : -(2 ^ 53 - 1) ≤ tale.likes ∧ tale.likes ≤ 2 ^ 53 - 1 := by
    simpa [isSafeInteger] using hsafe
  rw [h1]
  refine ⟨rfl, ?_, ?_, ?_, ?_⟩
  · simp only [hT1, Option.map_some']
  · constructor <;> omega
  · refine ⟨_, hU1, by simp, ?_⟩
    intro x hx
    simp [List.mem_filter, hx]
  · simp only [deleteLike, hauth]
    exact unlikeHandler_not hT1 hU1 (by simp)

/-- Witness of `unlike_then_unlike_again`: user 2 unlikes the tale 11, which is private. -/
theorem unlike_then_unlike_again_witness :
    (deleteLike exVerify noFaults exLikedStore (some "Bearer bob") 11).2
        = ⟨200, .likes (max 0 (({ exPrivateTale with likes := 1 } : Tale).likes - 1))⟩
    ∧ (Tale.findById (deleteLike exVerify noFaults exLikedStore (some "Bearer bob") 11).1 11).map
          (fun t => t.likes)
        = some (max 0 (({ exPrivateTale with likes := 1 } : Tale).likes - 1))
    ∧ (-(2 ^ 53) ≤ ({ exPrivateTale with likes := 1 } : Tale).likes - 1
        ∧ ({ exPrivateTale with likes := 1 } : Tale).likes - 1 ≤ 2 ^ 53)
    ∧ (∃ user1,
        User.findById (deleteLike exVerify noFaults exLikedStore (some "Bearer bob") 11).1 2
          = some user1
        ∧ 11 ∉ user1.likedTales
        ∧ ∀ x, x ≠ 11 →
            (x ∈ user1.likedTales ↔ x ∈ ({ exBob with likedTales := [11] } : User).likedTales))
    ∧ deleteLike exVerify noFaults
          (deleteLike exVerify noFaults exLikedStore (some "Bearer bob") 11).1
          (some "Bearer bob") 11
        = ((deleteLike exVerify noFaults exLikedStore (some "Bearer bob") 11).1,
            ⟨400, .message "Tale not liked yet"⟩) :=
  unlike_then_unlike_again exVerify exLikedStore (some "Bearer bob") 2 11
    { exPrivateTale with likes := 1 } { exBob with likedTales := [11] }
    (by rfl) (by decide) (by decide) (by decide) (by decide)

/-- C4 (as stated, refuted): when `tale.save()` fails, the like handler answers 500 after
the liked set of the user was stored while the counter was not, and the unlike handler
answers 500 after the tale left the liked set while the counter stayed. -/
theorem like_save_failure_half_applied :
    (postLike exVerify exTaleSaveFails exStore (some "Bearer bob") 10).2
        = ⟨500, .text "Server error"⟩
    ∧ (postLike exVerify exTaleSaveFails exStore (some "Bearer bob") 10).1 ≠ exStore
    ∧ (User.findById (postLike exVerify exTaleSaveFails exStore (some "Bearer bob") 10).1 2).map
          (fun u => u.likedTales) = some [10]
    ∧ (Tale.findById (postLike exVerify exTaleSaveFails exStore (some "Bearer bob") 10).1 10).map
          (fun t => t.likes) = some 0
    ∧ (deleteLike exVerify exTaleSaveFails exLikedStore (some "Bearer bob") 11).2
        = ⟨500, .text "Server error"⟩
    ∧ (deleteLike exVerify exTaleSaveFails exLikedStore (some "Bearer bob") 11).1 ≠ exLikedStore
    ∧ (User.findById
          (deleteLike exVerify exTaleSaveFails exLikedStore (some "Bearer bob") 11).1 2).map
          (fun u => u.likedTales) = some []
    ∧ (Tale.findById
          (deleteLike exVerify exTaleSaveFails exLikedStore (some "Bearer bob") 11).1 11).map
          (fun t => t.likes) = some 1 := by
  decide

/-- C4 (amended): once the checks of the like (resp. unlike) handler have passed, a
failure of `user.save()`, the first save, leaves the store unchanged, and a failure of
`tale.save()`, the second save, leaves the store with the liked set of `P` updated and
the stored tale, its counter included, as before. -/
theorem like_unlike_save_failure (verify : JwtVerify) (faults : StoreFaults) (s : Store)
    (authHeader : Option String) (P : UserId) (T : TaleId) (tale : Tale) (user : User)
    (hauth : auth verify authHeader = .ok (some P))
    (hf0 : faults 0 = none) (hf1 : faults 1 = none)
    (hT : Tale.findById s T = some tale) (hU : User.findById s P = some user) :
    (tale.isPublic = true → T ∉ user.likedTales →
      (∀ e, faults 2 = some e → postLike verify faults s authHeader T = (s, catchResponse e))
      ∧ (∀ e, faults 2 = none → faults 3 = some e →
          postLike verify faults s authHeader T
            = (User.save s { user with likedTales := user.likedTales ++ [T] }, catchResponse e)
          ∧ User.findById (User.save s { user with likedTales := user.likedTales ++ [T] }) P
            = some { user with likedTales := user.likedTales ++ [T] }
          ∧ Tale.findById (User.save s { user with likedTales := user.likedTales ++ [T] }) T
            = some tale))
    ∧ (T ∈ user.likedTales →
      (∀ e, faults 2 = some e → deleteLike verify faults s authHeader T = (s, catchResponse e))
      ∧ (∀ e, faults 2 = none → faults 3 = some e →
          deleteLike verify faults s authHeader T
            = (User.save s { user with likedTales := user.likedTales.filter (fun x => x != T) },
                catchResponse e)
          ∧ User.findById
              (User.save s { user with likedTales := user.likedTales.filter (fun x => x != T) }) P
            = some { user with likedTales := user.likedTales.filter (fun x => x != T) }
          ∧ Tale.findById
              (User.save s { user with likedTales := user.likedTales.filter (fun x => x != T) }) T
            = some tale)) := by
  have hid : tale.id = T := findTale_id hT
  have huid : user.id = P := findUser_id hU
  refine ⟨fun hpub hnot => ⟨?_, ?_⟩, fun hin => ⟨?_, ?_⟩⟩
  · intro e h2
    simp [postLike, hauth, likeHandler, hf0, hf1, hT, hpub, hU, hid, hnot, h2]
  · intro e h2 h3
    refine ⟨?_, findUser_save hU huid, by simpa using hT⟩
    simp [postLike, hauth, likeHandler, hf0, hf1, hT, hpub, hU, hid, hnot, h2, h3]
  · intro e h2
    simp [deleteLike, hauth, unlikeHandler, hf0, hf1, hT, hU, hid, hin, h2]
  · intro e h2 h3
    refine ⟨?_, findUser_save hU huid, by simpa using hT⟩
    simp [deleteLike, hauth, unlikeHandler, hf0, hf1, hT, hU, hid, hin, h2, h3]

/-- Witness of `like_unlike_save_failure`: in the example store the `tale.save()` of a
like by user 2 fails; the liked set of user 2 is stored, the tale is as before. -/
theorem like_unlike_save_failure_witness :
    postLike exVerify exTaleSaveFails exStore (some "Bearer bob") 10
        = (User.save exStore { exBob with likedTales := exBob.likedTales ++ [10] },
            catchResponse Thrown.other)
    ∧ User.findById (User.save exStore { exBob with likedTales := exBob.likedTales ++ [10] }) 2
        = some { exBob with likedTales := exBob.likedTales ++ [10] }
    ∧ Tale.findById (User.save exStore { exBob with likedTales := exBob.likedTales ++ [10] }) 10
        = some exPublicTale :=
  ((like_unlike_save_failure exVerify exTaleSaveFails exStore (some "Bearer bob") 2 10
      exPublicTale exBob (by rfl) rfl rfl (by decide) (by decide)).1 rfl (by decide)).2
    Thrown.other rfl rfl

/-! ## The counter and the liked sets -/

/-- C3: from a store in which the counter of every tale equals the number of users whose
liked set holds it (user ids being unique), every request to create, update, delete,
like or unlike that meets no store failure leads to a store with the same property, and
so does every sequential run of such requests; the `_id` generated for a created tale is
assumed new to the store. -/
theorem counter_invariant (verify : JwtVerify) (s : Store)
    (hu : UniqueUserIds s) (hinv : CounterInv s) :
    (∀ r : Request, freshFor s r = true → CounterInv (step verify noFaults s r).1)
    ∧ (∀ reqs : List Request, freshRun verify s reqs = true →
        CounterInv (run verify s reqs)) :=
  ⟨fun r hr => (step_preserves verify s r hu hinv hr).1,
    fun reqs hr => (run_preserves verify reqs s hu hinv hr).1⟩

/-- Witness of `counter_invariant`: the example run through all five routes. -/
theorem counter_invariant_witness :
    UniqueUserIds exStore ∧ CounterInv exStore ∧ freshRun exVerify exStore exRequests = true
      ∧ CounterInv (run exVerify exStore exRequests) :=
  ⟨by unfold UniqueUserIds; decide, by unfold CounterInv; decide, by decide,
    (counter_invariant exVerify exStore (by unfold UniqueUserIds; decide)
      (by unfold CounterInv; decide)).2 exRequests (by decide)⟩

end Tales
